import Mathlib

/-!
Verification of the NOAA temperature data preparation pipeline (src/flow.py).

The development shallowly embeds the pipeline's data model and operations:
- the S3 object store is an association list from keys to objects (content
  plus a last-modified timestamp, in minutes, as an integer);
- an object's byte content is abstracted by its pandas parse outcome:
  completely empty (read_csv raises EmptyDataError), malformed (read_csv
  raises ParserError), a parsed table (header plus rows of optional string
  cells, where a missing cell is pandas NaN), or written text lines;
- Python exceptions are modelled with Except; functions whose Python
  counterpart mutates S3 before raising carry the mutated store in the error.
-/

namespace NOAA

/-- Python exceptions that can cross the functions of flow.py. -/
inductive PyErr where
  | keyError
  | indexError
  | nameError
  | attributeError
  | valueError
  | clientError
  | noSuchKey
  | emptyDataError
  | parserError
  | typeError
deriving DecidableEq, Repr

/-- A parsed CSV table: header names and rows of cells.  A `none` cell is a
missing value (pandas NaN); cells are kept as raw strings, matching the
`dtype=str` reads used by the validation functions. -/
structure Table where
  header : List String
  rows : List (List (Option String))
deriving DecidableEq, Repr

/-- Abstraction of an S3 object's byte content by its parse outcome. -/
inductive Content where
  | empty
  | malformed
  | table (t : Table)
  | text (lines : List String)
deriving DecidableEq, Repr

/-- An S3 object: content plus system last-modified time (minutes). -/
structure Obj where
  content : Content
  lastModified : Int
deriving DecidableEq, Repr

deriving instance DecidableEq for Except

/-- The S3 bucket: an association list from keys to objects. -/
abbrev Store := List (String × Obj)

/-- `get_object`: first entry with the given key. -/
def getObj (store : Store) (k : String) : Option Obj :=
  (store.find? (fun kv => kv.1 == k)).map (fun kv => kv.2)

/-- `put_object` / copy destination: overwrite the first entry with the key,
or append a fresh entry. -/
def putObj : Store → String → Obj → Store
  | [], k, v => [(k, v)]
  | kv :: tl, k, v => if kv.1 = k then (k, v) :: tl else kv :: putObj tl k v

/-- `delete`: remove every entry with the key (a no-op when absent). -/
def delObj (store : Store) (k : String) : Store :=
  store.filter (fun kv => !(kv.1 == k))

/-- Number of entries stored under a key. -/
def countKey (store : Store) (k : String) : Nat :=
  store.countP (fun kv => kv.1 == k)

/-- The store's keys are pairwise distinct (the S3 invariant). -/
def nodupKeys (store : Store) : Prop := (store.map Prod.fst).Nodup

instance (store : Store) : Decidable (nodupKeys store) := by
  unfold nodupKeys; infer_instance

/-- Character-list prefix test (Python `str.startswith`). -/
def listStarts : List Char → List Char → Bool
  | [], _ => true
  | _ :: _, [] => false
  | p :: ps, c :: cs => p == c && listStarts ps cs

/-- Substring occurrence on character lists (Python `in`). -/
def subOccurs (pat : List Char) : List Char → Bool
  | [] => listStarts pat []
  | c :: cs => listStarts pat (c :: cs) || subOccurs pat cs

/-- Python `pat in s` for strings. -/
def containsSub (s pat : String) : Bool := subOccurs pat.data s.data

/-- Python `s.startswith(pre)`, used for S3 prefix listing. -/
def startsWithStr (s pre : String) : Bool := listStarts pre.data s.data

/-- Python `str.split(sep)` on character lists (single-character separator;
splitting the empty string yields one empty group, as in Python). -/
def splitChar (sep : Char) : List Char → List (List Char)
  | [] => [[]]
  | c :: cs =>
    let r := splitChar sep cs
    if c == sep then [] :: r
    else
      match r with
      | [] => [[c]]
      | g :: gs => (c :: g) :: gs

/-- Python `s.split(sep)` for strings. -/
def splitStr (s : String) (sep : Char) : List String :=
  (splitChar sep s.data).map (fun cs => String.mk cs)

/-- Whitespace for Python `str.strip`. -/
def isSpaceChar (c : Char) : Bool := c == ' ' || c == '\t' || c == '\n' || c == '\r'

/-- Python `str.strip()`. -/
def trimStr (s : String) : String :=
  String.mk (((s.data.dropWhile isSpaceChar).reverse.dropWhile isSpaceChar).reverse)

/-- Code-point order on strings (Python string comparison for `sorted`). -/
def charListLe : List Char → List Char → Bool
  | [], _ => true
  | _ :: _, [] => false
  | a :: as, b :: bs =>
    if a.toNat < b.toNat then true
    else if b.toNat < a.toNat then false
    else charListLe as bs

def strLe (a b : String) : Bool := charListLe a.data b.data

def insertSorted (s : String) : List String → List String
  | [] => [s]
  | a :: as => if strLe s a then s :: a :: as else a :: insertSorted s as

/-- Python `sorted` on strings (insertion sort by code points). -/
def sortStr (l : List String) : List String := l.foldr insertSorted []

/-- First-occurrence distinct values: pandas `Series.unique()` (all NaN cells
hash to the one NaN) and also Python `set` construction order-erased by the
subsequent sort. -/
def pdUnique {α : Type} [BEq α] (col : List α) : List α :=
  col.foldl (fun acc v => if acc.contains v then acc else acc ++ [v]) []

/-- Python `sep.join` used to render one output row. -/
def joinWith (sep : String) : List String → String
  | [] => ""
  | [x] => x
  | x :: xs => x ++ sep ++ joinWith sep xs

/-- Pandas elementwise equality: NaN compares unequal to everything,
including NaN. -/
def optEq : Option String → Option String → Bool
  | some a, some b => a == b
  | _, _ => false

/-- Python truthiness of an optional string (None and "" are falsy). -/
def truthy : Option String → Bool
  | none => false
  | some s => !(s == "")

/-- `pd.read_csv` on an object body: empty input raises EmptyDataError,
malformed input raises ParserError, otherwise the parsed table.  Written
text lines parse back by splitting on commas (empty cell is NaN). -/
def read_csv : Content → Except PyErr Table
  | .empty => .error .emptyDataError
  | .malformed => .error .parserError
  | .table t => .ok t
  | .text [] => .error .emptyDataError
  | .text (h :: rows) =>
    .ok ⟨splitStr h ',',
         rows.map (fun r => (splitStr r ',').map (fun c => if c = "" then none else some c))⟩

/-- `records[name]` after `records.columns = records.columns.str.strip()`:
find the column by stripped header name; absence is a KeyError.  A row
shorter than the header pads with NaN. -/
def getCol (t : Table) (name : String) : Option (List (Option String)) :=
  match (t.header.map (fun h => trimStr h)).findIdx? (fun h => h == name) with
  | none => none
  | some i => some (t.rows.map (fun r => (r.get? i).join))

/-- `df1[name]` with the raw (unstripped) header, as in the aggregation read. -/
def getColRaw (t : Table) (name : String) : Option (List (Option String)) :=
  match t.header.findIdx? (fun h => h == name) with
  | none => none
  | some i => some (t.rows.map (fun r => (r.get? i).join))

/-- flow.py `column_unique_values_check`: `value_l = column.unique()`; more
than one distinct value yields the sentinel "X", otherwise `value_l[0]`
(an IndexError on a zero-row column). -/
def column_unique_values_check (column : List (Option String)) : Except PyErr (Option String) :=
  if 1 < (pdUnique column).length then .ok (some "X")
  else
    match pdUnique column with
    | [] => .error .indexError
    | v :: _ => .ok v

/-- `column_unique_values_check(records[name])`: the column access happens
first, so a missing column is a KeyError (the `except KeyError` in the
source is commented out and does not catch it). -/
def colUniqueRes (t : Table) (name : String) : Except PyErr (Option String) :=
  match getCol t name with
  | none => .error .keyError
  | some col => column_unique_values_check col

/-- The four sequential `if ... == "X": return filename` tests at the end of
`unique_values_spatial_check`. -/
def sentinelChain (filename : String) (site_number latitude longitude elevation : Option String) :
    Except PyErr (Option String) :=
  if site_number == some "X" then .ok (some filename)
  else if latitude == some "X" then .ok (some filename)
  else if longitude == some "X" then .ok (some filename)
  else if elevation == some "X" then .ok (some filename)
  else .ok none

/-- The body of the `try:` in `unique_values_spatial_check`: parse, run the
unique-values check on STATION, LATITUDE, LONGITUDE and ELEVATION (all four
column accesses happen before the comparisons), and return the filename
when any check yields "X". -/
def uniqBody (filename : String) (data : Content) : Except PyErr (Option String) :=
  match read_csv data with
  | .error e => .error e
  | .ok records =>
    match colUniqueRes records "STATION" with
    | .error e => .error e
    | .ok site_number =>
      match colUniqueRes records "LATITUDE" with
      | .error e => .error e
      | .ok latitude =>
        match colUniqueRes records "LONGITUDE" with
        | .error e => .error e
        | .ok longitude =>
          match colUniqueRes records "ELEVATION" with
          | .error e => .error e
          | .ok elevation =>
            sentinelChain filename site_number latitude longitude elevation

/-- flow.py `unique_values_spatial_check`: the try body, with only
EmptyDataError and ParserError caught, both returning "X".  The commented-out
`except KeyError` of the source is dead: a KeyError propagates. -/
def unique_values_spatial_check (filename : String) (data : Content) :
    Except PyErr (Option String) :=
  match uniqBody filename data with
  | .error .emptyDataError => .ok (some "X")
  | .error .parserError => .ok (some "X")
  | r => r

/-- `records[name].eq(records[name].iloc[0]).all()`: NaN never equals the
first value; a zero-row column makes `iloc[0]` an IndexError. -/
def eqFirstAll (col : List (Option String)) : Except PyErr Bool :=
  match col with
  | [] => .error .indexError
  | v0 :: _ => .ok (col.all (fun v => optEq v v0))

/-- The all-rows-equal-first test for one named column of the table. -/
def colEqRes (t : Table) (name : String) : Except PyErr Bool :=
  match getCol t name with
  | none => .error .keyError
  | some col => eqFirstAll col

/-- flow.py `csv_clean_spatial_check`: no try/except; the `or`-chain
short-circuits, returning the filename at the first column whose values do
not all equal the first row's value, and None when all four agree. -/
def csv_clean_spatial_check (filename : String) (data : Content) :
    Except PyErr (Option String) :=
  match read_csv data with
  | .error e => .error e
  | .ok records =>
    match colEqRes records "STATION" with
    | .error e => .error e
    | .ok sOk =>
      if !sOk then .ok (some filename)
      else
        match colEqRes records "LATITUDE" with
        | .error e => .error e
        | .ok laOk =>
          if !laOk then .ok (some filename)
          else
            match colEqRes records "LONGITUDE" with
            | .error e => .error e
            | .ok loOk =>
              if !loOk then .ok (some filename)
              else
                match colEqRes records "ELEVATION" with
                | .error e => .error e
                | .ok elOk =>
                  if !elOk then .ok (some filename)
                  else .ok none

/-- The quarantine destination name `"_data_error/{year}-{number}-{note}.csv"`
with `number = file_.split(".")[0]`. -/
def destName (year file_ note : String) : String :=
  "_data_error/" ++ year ++ "-" ++ (splitStr file_ '.').headD "" ++ "-" ++ note ++ ".csv"

/-- flow.py `move_s3_file`: inside a try that only catches ValueError whose
message contains "not enough values to unpack": ensure the `_data_error/`
marker object exists (an unconditional put), split the key on "/" into
exactly `year, file_` (one segment: the caught ValueError; three or more:
"too many values to unpack", re-raised with no delete), copy the object to
the quarantine name (a missing source is a botocore ClientError, uncaught),
then delete the original.  Errors carry the store as mutated so far. -/
def move_s3_file (now : Int) (store : Store) (filename note : String) :
    Except (PyErr × Store) Store :=
  let store1 := putObj store "_data_error/" ⟨.empty, now⟩
  let afterTry : Except (PyErr × Store) Store :=
    match splitStr filename '/' with
    | [year, file_] =>
      match getObj store1 filename with
      | none => .error (.clientError, store1)
      | some obj => .ok (putObj store1 (destName year file_ note) ⟨obj.content, now⟩)
    | [_] => .ok store1
    | _ => .error (.valueError, store1)
  match afterTry with
  | .error e => .error e
  | .ok store2 => .ok (delObj store2 filename)

/-- `move_s3_file` as called from the exception handlers, where the stale
`spatial_errors` variable may be None: `None.split("/")` is an
AttributeError, raised after the marker put. -/
def move_s3_file_opt (now : Int) (store : Store) (fopt : Option String) (note : String) :
    Except (PyErr × Store) Store :=
  match fopt with
  | some f => move_s3_file now store f note
  | none => .error (.attributeError, putObj store "_data_error/" ⟨.empty, now⟩)

/-- The body of the `try:` in the `process_year_files` loop for one filename:
read the object (a vanished key is NoSuchKey), run the uniqueness check
(truthy result: quarantine as "non_unique_spatial" and continue, leaving the
`spatial_errors` variable untouched), re-read and run the completeness check
(binding `spatial_errors`; truthy: quarantine as "missing_spatial"),
otherwise touch the object's metadata via an in-place copy, which updates
its last-modified time.  The second component of the result is the
`spatial_errors` local: `none` while still unbound, `some v` once assigned. -/
def tryBody (now : Int) (store : Store) (se : Option (Option String)) (filename : String) :
    Except (PyErr × Store) (Store × Option (Option String)) :=
  match getObj store filename with
  | none => .error (.noSuchKey, store)
  | some obj =>
    match unique_values_spatial_check filename obj.content with
    | .error e => .error (e, store)
    | .ok non_unique_spatial =>
      if truthy non_unique_spatial then
        match move_s3_file now store (non_unique_spatial.getD "") "non_unique_spatial" with
        | .error es => .error es
        | .ok st => .ok (st, se)
      else
        match getObj store filename with
        | none => .error (.noSuchKey, store)
        | some obj2 =>
          match csv_clean_spatial_check filename obj2.content with
          | .error e => .error (e, store)
          | .ok spatial_errors =>
            if truthy spatial_errors then
              match move_s3_file now store (spatial_errors.getD "") "missing_spatial" with
              | .error es => .error es
              | .ok st => .ok (st, some spatial_errors)
            else
              .ok (putObj store filename ⟨obj2.content, now⟩, some spatial_errors)

/-- One iteration of the `process_year_files` loop: skip keys of length at
most 5 and keys in the summary or quarantine namespaces; otherwise run the
try body.  The handlers for EmptyDataError and NoSuchKey call
`move_s3_file(spatial_errors, ...)` with the stale loop variable: if it was
never bound this is a NameError that aborts the batch. -/
def processOneFile (now : Int) (store : Store) (se : Option (Option String)) (filename : String) :
    Except (PyErr × Store) (Store × Option (Option String)) :=
  if filename.length ≤ 5 then .ok (store, se)
  else if containsSub filename "year_average" || containsSub filename "_data_error" then
    .ok (store, se)
  else
    match tryBody now store se filename with
    | .error (.emptyDataError, st) =>
      (match se with
       | none => .error (.nameError, st)
       | some sev =>
         match move_s3_file_opt now st sev "empty_data_error" with
         | .error es => .error es
         | .ok st2 => .ok (st2, se))
    | .error (.noSuchKey, st) =>
      (match se with
       | none => .error (.nameError, st)
       | some sev =>
         match move_s3_file_opt now st sev "no_such_key_error" with
         | .error es => .error es
         | .ok st2 => .ok (st2, se))
    | r => r

/-- The `process_year_files` loop over a batch, threading the store and the
`spatial_errors` local (initially unbound) through the iterations. -/
def processFiles (now : Int) (store : Store) (se : Option (Option String)) :
    List String → Except (PyErr × Store) Store
  | [] => .ok store
  | f :: rest =>
    match processOneFile now store se f with
    | .error es => .error es
    | .ok (st, se') => processFiles now st se' rest

/-- flow.py task `process_year_files` applied to one batch of keys. -/
def process_year_files (now : Int) (store : Store) (files_l : List String) :
    Except (PyErr × Store) Store :=
  processFiles now store none files_l

/-- The objects whose key starts with the prefix: the `Contents` of the
paginated `list_objects_v2` listing. -/
def keysWithPre (store : Store) (pre : String) : Store :=
  store.filter (fun kv => startsWithStr kv.1 pre)

/-- flow.py `aws_year_files`: list keys under the year prefix; when the page
has no `Contents` entry (zero matching objects) the subscript raises
KeyError; the keys are deduplicated through a set and sorted. -/
def aws_year_files (store : Store) (year : String) : Except PyErr (List String) :=
  let contents := keysWithPre store year
  if contents.isEmpty then .error .keyError
  else .ok (sortStr (pdUnique (contents.map (fun kv => kv.1))))

/-- flow.py task `aws_all_year_files`: like `aws_year_files` (including the
KeyError on a `Contents`-less page) but keeping only keys whose
last-modified time is less than `min_old` minutes ago (`time_less_than`
true) or more than `min_old` minutes ago (false). -/
def aws_all_year_files (now : Int) (store : Store) (year : String)
    (min_old : Int) (time_less_than : Bool) : Except PyErr (List String) :=
  let contents := keysWithPre store year
  if contents.isEmpty then .error .keyError
  else
    let file_l :=
      if time_less_than then
        (contents.filter (fun kv => now - min_old < kv.2.lastModified)).map (fun kv => kv.1)
      else
        (contents.filter (fun kv => kv.2.lastModified < now - min_old)).map (fun kv => kv.1)
    .ok (sortStr (pdUnique file_l))

/-- The `chunks` generator of `aws_lists_prep_for_map`, with fuel equal to
the list length: for any chunk size of at least 1 this yields exactly the
successive `list_size`-sized slices (Python `range(0, len, size)`). -/
def chunksAux : Nat → List String → Nat → List (List String)
  | 0, _, _ => []
  | _ + 1, [], _ => []
  | fuel + 1, a :: as, size => ((a :: as).take size) :: chunksAux fuel ((a :: as).drop size) size

def chunks (file_l : List String) (list_size : Nat) : List (List String) :=
  chunksAux file_l.length file_l list_size

/-- flow.py task `aws_lists_prep_for_map`: flatten the per-year key lists,
truncate to `total_processed` entries, and split into `list_size` chunks. -/
def aws_lists_prep_for_map (file_l : List (List String))
    (list_size total_processed : Nat) : List (List String) :=
  chunks ((file_l.flatten).take total_processed) list_size

/-- Numeric value of a digit list. -/
def digitsVal (l : List Char) : Nat :=
  l.foldl (fun a c => a * 10 + (c.toNat - '0'.toNat)) 0

/-- Pandas numeric conversion of one CSV cell (type inference in the
dtype-less `pd.read_csv` of the aggregation): an optional sign, digits,
an optional fractional part.  A cell that does not convert makes the whole
column non-numeric. -/
def parseRat (s : String) : Option ℚ :=
  let cs := s.data
  let signAndRest : ℚ × List Char :=
    match cs with
    | '-' :: r => (-1, r)
    | '+' :: r => (1, r)
    | r => (1, r)
  let sign := signAndRest.1
  let rest := signAndRest.2
  let intPart := rest.takeWhile Char.isDigit
  let rest2 := rest.drop intPart.length
  match rest2 with
  | [] => if intPart.isEmpty then none else some (sign * digitsVal intPart)
  | '.' :: frac =>
    if frac.all Char.isDigit && !(intPart.isEmpty && frac.isEmpty) then
      some (sign * ((digitsVal intPart : ℚ) + digitsVal frac / (10 ^ frac.length : ℕ)))
    else none
  | _ => none

/-- `Series.mean()`: NaN cells are skipped; a column with a present
non-numeric cell is an object column whose mean raises TypeError; the mean
of no values is NaN (`none`). -/
def colMean (cells : List (Option String)) : Except PyErr (Option ℚ) :=
  let present := cells.filterMap id
  let parsed := present.map parseRat
  if parsed.any (fun p => p.isNone) then .error .typeError
  else
    let nums := parsed.filterMap id
    if nums.isEmpty then .ok none
    else .ok (some (nums.sum / (nums.length : ℚ)))

/-- `df1[name].mean()`: the raw-header column access first (KeyError when
absent), then the mean. -/
def colMeanRes (t : Table) (name : String) : Except PyErr (Option ℚ) :=
  match getColRaw t name with
  | none => .error .keyError
  | some col => colMean col

/-- `df1[name].unique()` in the aggregation: the distinct raw values. -/
def colUniqueArr (t : Table) (name : String) : Except PyErr (List (Option String)) :=
  match getColRaw t name with
  | none => .error .keyError
  | some col => .ok (pdUnique col)

/-- Rendering of a mean in the output row (`nan` for a missing mean). -/
def fmtMean : Option ℚ → String
  | none => "nan"
  | some q => toString q

/-- Rendering of a `unique()` array in the output row's f-string. -/
def fmtArr (l : List (Option String)) : String :=
  "[" ++ joinWith " " (l.map (fun c => c.getD "nan")) ++ "]"

/-- The fixed header line of a yearly summary. -/
def headerLine : String :=
  "SITE_NUMBER,LATITUDE,LONGITUDE,ELEVATION,AVERAGE_TEMP,DEWP,STP,MIN,MAX,PRCP"

/-- The summary key `"year_average/avg_{year_folder}.csv"`. -/
def summKey (year_folder : String) : String :=
  "year_average/avg_" ++ year_folder ++ ".csv"

/-- One row of the yearly summary for a parsed site file, in the source's
evaluation order: the six means, then the four `unique()` arrays; a missing
column is a KeyError that propagates out of the per-year task. -/
def calcRow (df1 : Table) : Except PyErr String := do
  let average_temp ← colMeanRes df1 "TEMP"
  let average_dewp ← colMeanRes df1 "DEWP"
  let average_stp ← colMeanRes df1 "STP"
  let average_min ← colMeanRes df1 "MIN"
  let average_max ← colMeanRes df1 "MAX"
  let average_prcp ← colMeanRes df1 "PRCP"
  let site_number ← colUniqueArr df1 "STATION"
  let latitude ← colUniqueArr df1 "LATITUDE"
  let longitude ← colUniqueArr df1 "LONGITUDE"
  let elevation ← colUniqueArr df1 "ELEVATION"
  return joinWith ","
    [fmtArr site_number, fmtArr latitude, fmtArr longitude, fmtArr elevation,
     fmtMean average_temp, fmtMean average_dewp, fmtMean average_stp,
     fmtMean average_min, fmtMean average_max, fmtMean average_prcp]

/-- One site inside the `calculate_year_csv` loop: read the object (a
vanished key is an uncaught NoSuchKey), parse it, and build its row.  Only
EmptyDataError and ParserError are caught (`pass`: the file contributes no
row); every other error aborts the year's task. -/
def calcSite (store : Store) (site : String) : Except PyErr (Option String) :=
  match getObj store site with
  | none => .error .noSuchKey
  | some obj =>
    match read_csv obj.content with
    | .error .emptyDataError => .ok none
    | .error .parserError => .ok none
    | .error e => .error e
    | .ok df1 =>
      match calcRow df1 with
      | .error e => .error e
      | .ok row => .ok (some row)

/-- The `calculate_year_csv` loop over the year's files: accumulate the
output rows in file order and record every attempted read. -/
def calcLoop (store : Store) : List String → Except PyErr (List String × List String)
  | [] => .ok ([], [])
  | site :: rest =>
    match calcSite store site with
    | .error e => .error e
    | .ok r =>
      match calcLoop store rest with
      | .error e => .error e
      | .ok (rows, reads) => .ok (r.toList ++ rows, site :: reads)

/-- The outcome of a successful `calculate_year_csv`: the store after the
summary write, and the keys read. -/
structure CalcOut where
  store : Store
  reads : List String
deriving DecidableEq, Repr

/-- flow.py task `calculate_year_csv`: when `calc_all` is false and the
year's summary key occurs in the supplied `finished_files` list, return
without touching anything; otherwise list the year's keys (KeyError when
none), keep keys longer than 6 characters, build the header plus one row
per successfully processed file, and overwrite the summary object. -/
def calculate_year_csv (now : Int) (store : Store) (year_folder : String)
    (finished_files : List String) (calc_all : Bool) :
    Except (PyErr × Store) CalcOut :=
  if !calc_all && finished_files.contains (summKey year_folder) then
    .ok ⟨store, []⟩
  else
    match aws_year_files store year_folder with
    | .error e => .error (e, store)
    | .ok files0 =>
      let files_l := files0.filter (fun x => 6 < x.length)
      match calcLoop store files_l with
      | .error e => .error (e, store)
      | .ok (rows, reads) =>
        .ok ⟨putObj store (summKey year_folder) ⟨.text (headerLine :: rows), now⟩, reads⟩

/-- The reads issued by a `calculate_year_csv` call (none when it aborted). -/
def calcReads (r : Except (PyErr × Store) CalcOut) : List String :=
  match r with
  | .ok o => o.reads
  | .error _ => []

/-- The row a site contributes to the summary, if any. -/
def rowOf (store : Store) (site : String) : Option String :=
  match calcSite store site with
  | .ok (some r) => some r
  | _ => none

/-- Whether an exceptional computation succeeded. -/
def exOk {α : Type} (r : Except PyErr α) : Bool :=
  match r with
  | .ok _ => true
  | .error _ => false

/-- Whether a site fully processed (contributed a row). -/
def exOkSome (r : Except PyErr (Option String)) : Bool :=
  match r with
  | .ok (some _) => true
  | _ => false

/-- A well-formed station-year table: constant spatial columns and numeric
measurement columns. -/
def goodTable : Table :=
  ⟨["STATION", "LATITUDE", "LONGITUDE", "ELEVATION", "TEMP", "DEWP", "STP", "MIN", "MAX", "PRCP"],
   [[some "11111", some "33.5", some "44.5", some "100", some "50", some "1", some "2",
     some "3", some "4", some "5"],
    [some "11111", some "33.5", some "44.5", some "100", some "60", some "1", some "2",
     some "3", some "4", some "5"]]⟩

/-- A table that parses but lacks the ELEVATION column. -/
def missingColTable : Table :=
  ⟨["STATION", "LATITUDE", "LONGITUDE", "DATE"],
   [[some "1", some "2", some "3", some "4"]]⟩

/-- A store with one station-year file lacking a spatial column. -/
def missingColStore : Store := [("1929/12345.csv", ⟨.table missingColTable, 0⟩)]

/-- A table whose STATION column has two distinct values and whose ELEVATION
column is absent. -/
def nonUniqueNoElevTable : Table :=
  ⟨["STATION", "LATITUDE", "LONGITUDE"],
   [[some "1", some "2", some "3"], [some "9", some "2", some "3"]]⟩

/-- A store with one file combining a non-unique column and a missing one. -/
def nonUniqueNoElevStore : Store := [("1929/54321.csv", ⟨.table nonUniqueNoElevTable, 0⟩)]

/-- A store holding one proper station-year file under the key 1929/123.csv. -/
def quarStore : Store := [("1929/123.csv", ⟨.table goodTable, 0⟩)]

/-- `quarStore` after quarantining 1929/123.csv as missing_spatial at time 5. -/
def quarStoreAfter : Store :=
  [("_data_error/", ⟨.empty, 5⟩),
   ("_data_error/1929-123-missing_spatial.csv", ⟨.table goodTable, 5⟩)]

/-- A store with one completely empty station-year file. -/
def emptyFileStore : Store := [("1929/12345.csv", ⟨.empty, 3⟩)]

/-- A store whose only key has three path segments. -/
def threeSegStore : Store := [("a/b/c.csv", ⟨.empty, 0⟩)]

/-- A store where the 1929 summary already exists (written long ago) next to
one valid 1929 data file. -/
def oldSummaryStore : Store :=
  [("year_average/avg_1929.csv", ⟨.text [headerLine], 0⟩),
   ("1929/123.csv", ⟨.table goodTable, 0⟩)]

/-- A table that parses but has no TEMP column. -/
def noTempTable : Table :=
  ⟨["STATION", "LATITUDE", "LONGITUDE", "ELEVATION", "DEWP"],
   [[some "1", some "2", some "3", some "4", some "5"]]⟩

/-- A store whose only 1929 file parses but has no TEMP column. -/
def noTempStore : Store := [("1929/777.csv", ⟨.table noTempTable, 0⟩)]

/-- A table whose four spatial columns are present and whose STATION column
holds two distinct values. -/
def nonUniqueTable : Table :=
  ⟨["STATION", "LATITUDE", "LONGITUDE", "ELEVATION"],
   [[some "1", some "2", some "3", some "4"], [some "9", some "2", some "3", some "4"]]⟩

/-- A store holding one station-year file with a non-unique STATION column. -/
def nonUniqueStore : Store := [("1929/55555.csv", ⟨.table nonUniqueTable, 2⟩)]

/-- The lines of the summary that aggregation writes for a year whose
listing returned `files0`: the header, then one row per fully processed
file in listing order. -/
def yearSummaryLines (store : Store) (files0 : List String) : List String :=
  headerLine :: (files0.filter (fun x => 6 < x.length)).filterMap (rowOf store)

/-- A store with one fully processable 1929 file and one empty 1929 file. -/
def mixedYearStore : Store :=
  [("1929/123.csv", ⟨.table goodTable, 1⟩), ("1929/88.csv", ⟨.empty, 1⟩)]

/-- A store with a single data file, for the listing claims. -/
def oneFileStore : Store := [("1929/1.csv", ⟨.empty, 0⟩)]

/-! ### Association-list store lemmas -/

theorem getObj_cons (kv : String × Obj) (tl : Store) (k : String) :
    getObj (kv :: tl) k = if kv.1 = k then some kv.2 else getObj tl k := by
  by_cases h : kv.1 = k <;> simp [getObj, List.find?_cons, h]

theorem delObj_cons (kv : String × Obj) (tl : Store) (k : String) :
    delObj (kv :: tl) k = if kv.1 = k then delObj tl k else kv :: delObj tl k := by
  by_cases h : kv.1 = k <;> simp [delObj, List.filter_cons, h]

theorem getObj_putObj (store : Store) (k k' : String) (v : Obj) :
    getObj (putObj store k v) k' = if k = k' then some v else getObj store k' := by
  induction store with
  | nil => by_cases h : k = k' <;> simp [putObj, getObj_cons, getObj, h]
  | cons kv tl ih =>
    by_cases hk : kv.1 = k <;> by_cases h2 : kv.1 = k' <;> by_cases h3 : k = k' <;>
      simp_all [putObj, getObj_cons]

theorem getObj_putObj_self (store : Store) (k : String) (v : Obj) :
    getObj (putObj store k v) k = some v := by
  simp [getObj_putObj]

theorem getObj_putObj_ne (store : Store) (k k' : String) (v : Obj) (h : k' ≠ k) :
    getObj (putObj store k v) k' = getObj store k' := by
  rw [getObj_putObj, if_neg (fun he => h he.symm)]

theorem getObj_delObj (store : Store) (k k' : String) :
    getObj (delObj store k) k' = if k = k' then none else getObj store k' := by
  induction store with
  | nil => by_cases h : k = k' <;> simp [delObj, getObj, h]
  | cons kv tl ih =>
    by_cases hk : kv.1 = k <;> by_cases h2 : kv.1 = k' <;> by_cases h3 : k = k' <;>
      simp_all [delObj_cons, getObj_cons]

theorem getObj_delObj_self (store : Store) (k : String) :
    getObj (delObj store k) k = none := by
  simp [getObj_delObj]

theorem getObj_delObj_ne (store : Store) (k k' : String) (h : k' ≠ k) :
    getObj (delObj store k) k' = getObj store k' := by
  rw [getObj_delObj, if_neg (fun he => h he.symm)]

theorem putObj_same (store : Store) (k : String) (v : Obj)
    (h : getObj store k = some v) : putObj store k v = store := by
  induction store with
  | nil => simp [getObj] at h
  | cons kv tl ih =>
    rw [getObj_cons] at h
    by_cases hk : kv.1 = k
    · rw [if_pos hk] at h
      injection h with h2
      rw [putObj, if_pos hk, ← hk, ← h2]
    · rw [if_neg hk] at h
      rw [putObj, if_neg hk, ih h]

theorem keys_putObj (store : Store) (k : String) (v : Obj) :
    (putObj store k v).map Prod.fst =
      if k ∈ store.map Prod.fst then store.map Prod.fst
      else store.map Prod.fst ++ [k] := by
  induction store with
  | nil => simp [putObj]
  | cons kv tl ih =>
    by_cases hk : kv.1 = k
    · subst hk
      simp [putObj]
    · by_cases h2 : k ∈ tl.map Prod.fst
      · simp [putObj, hk, ih, h2, Ne.symm hk]
      · simp [putObj, hk, ih, h2, Ne.symm hk]

theorem nodupKeys_putObj (store : Store) (k : String) (v : Obj)
    (h : nodupKeys store) : nodupKeys (putObj store k v) := by
  unfold nodupKeys at h ⊢
  rw [keys_putObj]
  by_cases h2 : k ∈ store.map Prod.fst
  · rw [if_pos h2]
    exact h
  · rw [if_neg h2]
    simp [List.nodup_append, h, h2]

theorem countKey_cons (kv : String × Obj) (tl : Store) (k : String) :
    countKey (kv :: tl) k = countKey tl k + if kv.1 = k then 1 else 0 := by
  by_cases h : kv.1 = k <;> simp [countKey, List.countP_cons, h]

theorem countKey_eq_zero_of_not_mem (store : Store) (k : String)
    (h : k ∉ store.map Prod.fst) : countKey store k = 0 := by
  induction store with
  | nil => rfl
  | cons kv tl ih =>
    simp only [List.map_cons, List.mem_cons, not_or] at h
    rw [countKey_cons, if_neg (fun he => h.1 he.symm), ih h.2]

theorem countKey_putObj_self (store : Store) (k : String) (v : Obj)
    (h : nodupKeys store) : countKey (putObj store k v) k = 1 := by
  induction store with
  | nil => simp [putObj, countKey, List.countP_cons]
  | cons kv tl ih =>
    unfold nodupKeys at h
    simp only [List.map_cons, List.nodup_cons] at h
    by_cases hk : kv.1 = k
    · subst hk
      rw [putObj, if_pos rfl]
      simp [countKey_cons, countKey_eq_zero_of_not_mem tl kv.1 h.1]
    · rw [putObj, if_neg hk]
      simp [countKey_cons, hk, ih h.2]

theorem countKey_putObj_ne (store : Store) (k k' : String) (v : Obj) (h : k' ≠ k) :
    countKey (putObj store k v) k' = countKey store k' := by
  have h' : ¬ k = k' := fun he => h he.symm
  induction store with
  | nil => simp [putObj, countKey, List.countP_cons, h']
  | cons kv tl ih =>
    by_cases hk : kv.1 = k <;> by_cases h2 : kv.1 = k' <;>
      simp_all [putObj, countKey_cons]

theorem countKey_delObj_ne (store : Store) (k k' : String) (h : k' ≠ k) :
    countKey (delObj store k) k' = countKey store k' := by
  have h' : ¬ k = k' := fun he => h he.symm
  induction store with
  | nil => rfl
  | cons kv tl ih =>
    by_cases hk : kv.1 = k <;> by_cases h2 : kv.1 = k' <;>
      simp_all [delObj_cons, countKey_cons]

/-! ### Validation-check lemmas -/

theorem getCol_length (t : Table) (name : String) (col : List (Option String))
    (h : getCol t name = some col) : col.length = t.rows.length := by
  unfold getCol at h
  rcases hf : (t.header.map (fun h => trimStr h)).findIdx? (fun h => h == name) with _ | i
  · rw [hf] at h
    cases h
  · rw [hf] at h
    injection h with h2
    rw [← h2, List.length_map]

theorem pdUnique_acc_ne_nil {α : Type} [BEq α] (l : List α) (acc : List α) (h : acc ≠ []) :
    l.foldl (fun acc v => if acc.contains v then acc else acc ++ [v]) acc ≠ [] := by
  induction l generalizing acc with
  | nil => exact h
  | cons a as ih =>
    simp only [List.foldl_cons]
    by_cases hc : (acc.contains a) = true
    · rw [if_pos hc]
      exact ih acc h
    · rw [if_neg hc]
      exact ih _ (by simp)

theorem pdUnique_ne_nil {α : Type} [BEq α] (col : List α) (h : col ≠ []) :
    pdUnique col ≠ [] := by
  cases col with
  | nil => exact absurd rfl h
  | cons a as =>
    unfold pdUnique
    simp only [List.foldl_cons]
    have h0 : (List.contains ([] : List α) a) = false := rfl
    rw [if_neg (by simp [h0])]
    exact pdUnique_acc_ne_nil as [a] (by simp)

theorem pdUnique_acc_length_le {α : Type} [BEq α] (l : List α) (acc : List α) :
    (l.foldl (fun acc v => if acc.contains v then acc else acc ++ [v]) acc).length ≤
      acc.length + l.length := by
  induction l generalizing acc with
  | nil => simp
  | cons a as ih =>
    simp only [List.foldl_cons]
    by_cases hc : (acc.contains a) = true
    · rw [if_pos hc]
      exact le_trans (ih acc) (by simp [List.length_cons])
    · rw [if_neg hc]
      have := ih (acc ++ [a])
      simp [List.length_append] at this ⊢
      omega

theorem pdUnique_length_le {α : Type} [BEq α] (col : List α) :
    (pdUnique col).length ≤ col.length := by
  have := pdUnique_acc_length_le col []
  simpa [pdUnique] using this

theorem cuvc_ok (col : List (Option String)) (h : col ≠ []) :
    ∃ v, column_unique_values_check col = .ok v := by
  unfold column_unique_values_check
  by_cases hl : 1 < (pdUnique col).length
  · exact ⟨some "X", by rw [if_pos hl]⟩
  · rcases hu : pdUnique col with _ | ⟨v, rest⟩
    · exact absurd hu (pdUnique_ne_nil col h)
    · rw [hu] at hl
      rw [if_neg hl]
      exact ⟨v, rfl⟩

theorem cuvc_X_of_many (col : List (Option String)) (h : 1 < (pdUnique col).length) :
    column_unique_values_check col = .ok (some "X") := by
  unfold column_unique_values_check
  rw [if_pos h]

theorem colUniqueRes_of_missing (t : Table) (name : String) (h : getCol t name = none) :
    colUniqueRes t name = .error .keyError := by
  unfold colUniqueRes
  rw [h]

theorem colUniqueRes_of_col (t : Table) (name : String) (col : List (Option String))
    (h : getCol t name = some col) :
    colUniqueRes t name = column_unique_values_check col := by
  unfold colUniqueRes
  rw [h]

theorem col_ne_nil_of_rows (t : Table) (name : String) (col : List (Option String))
    (h : getCol t name = some col) (hrows : t.rows ≠ []) : col ≠ [] := by
  intro hnil
  have hlen := getCol_length t name col h
  rw [hnil] at hlen
  exact hrows (List.length_eq_zero.mp hlen.symm)

/-- A table with at least one data row and a missing spatial column makes
the uniqueness check raise KeyError (the `except KeyError` is dead code). -/
theorem uniq_keyError_of_missing (filename : String) (t : Table)
    (hrows : t.rows ≠ [])
    (hmiss : getCol t "STATION" = none ∨ getCol t "LATITUDE" = none ∨
             getCol t "LONGITUDE" = none ∨ getCol t "ELEVATION" = none) :
    unique_values_spatial_check filename (.table t) = .error .keyError := by
  have hbody : uniqBody filename (.table t) = .error .keyError := by
    unfold uniqBody
    rcases h1 : getCol t "STATION" with _ | c1
    · simp [read_csv, colUniqueRes_of_missing t "STATION" h1]
    · obtain ⟨v1, hv1⟩ := cuvc_ok c1 (col_ne_nil_of_rows t "STATION" c1 h1 hrows)
      rcases h2 : getCol t "LATITUDE" with _ | c2
      · simp [read_csv, colUniqueRes_of_col t "STATION" c1 h1, hv1,
          colUniqueRes_of_missing t "LATITUDE" h2]
      · obtain ⟨v2, hv2⟩ := cuvc_ok c2 (col_ne_nil_of_rows t "LATITUDE" c2 h2 hrows)
        rcases h3 : getCol t "LONGITUDE" with _ | c3
        · simp [read_csv, colUniqueRes_of_col t "STATION" c1 h1, hv1,
            colUniqueRes_of_col t "LATITUDE" c2 h2, hv2,
            colUniqueRes_of_missing t "LONGITUDE" h3]
        · obtain ⟨v3, hv3⟩ := cuvc_ok c3 (col_ne_nil_of_rows t "LONGITUDE" c3 h3 hrows)
          rcases h4 : getCol t "ELEVATION" with _ | c4
          · simp [read_csv, colUniqueRes_of_col t "STATION" c1 h1, hv1,
              colUniqueRes_of_col t "LATITUDE" c2 h2, hv2,
              colUniqueRes_of_col t "LONGITUDE" c3 h3, hv3,
              colUniqueRes_of_missing t "ELEVATION" h4]
          · rcases hmiss with hm | hm | hm | hm
            · rw [hm] at h1
              cases h1
            · rw [hm] at h2
              cases h2
            · rw [hm] at h3
              cases h3
            · rw [hm] at h4
              cases h4
  unfold unique_values_spatial_check
  rw [hbody]

theorem sentinelChain_X (filename : String) (v1 v2 v3 v4 : Option String)
    (h : v1 = some "X" ∨ v2 = some "X" ∨ v3 = some "X" ∨ v4 = some "X") :
    sentinelChain filename v1 v2 v3 v4 = .ok (some filename) := by
  unfold sentinelChain
  rcases h with h | h | h | h <;>
    by_cases h1 : v1 = some "X" <;> by_cases h2 : v2 = some "X" <;>
    by_cases h3 : v3 = some "X" <;> by_cases h4 : v4 = some "X" <;>
    simp_all

/-- A table all four of whose spatial columns are present, at least one of
them holding two or more distinct values, makes the uniqueness check return
the filename (the NonUniqueSpatial verdict), whatever the completeness
check would say. -/
theorem uniq_X_of_nonunique (filename : String) (t : Table)
    (c1 c2 c3 c4 : List (Option String))
    (h1 : getCol t "STATION" = some c1) (h2 : getCol t "LATITUDE" = some c2)
    (h3 : getCol t "LONGITUDE" = some c3) (h4 : getCol t "ELEVATION" = some c4)
    (hx : 1 < (pdUnique c1).length ∨ 1 < (pdUnique c2).length ∨
          1 < (pdUnique c3).length ∨ 1 < (pdUnique c4).length) :
    unique_values_spatial_check filename (.table t) = .ok (some filename) := by
  have hrows : t.rows ≠ [] := by
    have hlen : ∃ c : List (Option String), getCol t "STATION" = some c ∧ 2 ≤ c.length ∨
        getCol t "LATITUDE" = some c ∧ 2 ≤ c.length ∨
        getCol t "LONGITUDE" = some c ∧ 2 ≤ c.length ∨
        getCol t "ELEVATION" = some c ∧ 2 ≤ c.length := by
      rcases hx with h | h | h | h
      · exact ⟨c1, Or.inl ⟨h1, le_trans h (pdUnique_length_le c1)⟩⟩
      · exact ⟨c2, Or.inr (Or.inl ⟨h2, le_trans h (pdUnique_length_le c2)⟩)⟩
      · exact ⟨c3, Or.inr (Or.inr (Or.inl ⟨h3, le_trans h (pdUnique_length_le c3)⟩))⟩
      · exact ⟨c4, Or.inr (Or.inr (Or.inr ⟨h4, le_trans h (pdUnique_length_le c4)⟩))⟩
    obtain ⟨c, hc⟩ := hlen
    intro hnil
    rcases hc with ⟨hg, hl⟩ | ⟨hg, hl⟩ | ⟨hg, hl⟩ | ⟨hg, hl⟩ <;>
      · have := getCol_length t _ c hg
        rw [hnil] at this
        simp only [List.length_nil] at this
        omega
  obtain ⟨v1, hv1⟩ := cuvc_ok c1 (col_ne_nil_of_rows t "STATION" c1 h1 hrows)
  obtain ⟨v2, hv2⟩ := cuvc_ok c2 (col_ne_nil_of_rows t "LATITUDE" c2 h2 hrows)
  obtain ⟨v3, hv3⟩ := cuvc_ok c3 (col_ne_nil_of_rows t "LONGITUDE" c3 h3 hrows)
  obtain ⟨v4, hv4⟩ := cuvc_ok c4 (col_ne_nil_of_rows t "ELEVATION" c4 h4 hrows)
  have hsome : v1 = some "X" ∨ v2 = some "X" ∨ v3 = some "X" ∨ v4 = some "X" := by
    rcases hx with h | h | h | h
    · rw [cuvc_X_of_many c1 h] at hv1
      exact Or.inl (by injection hv1 with h'; exact h'.symm)
    · rw [cuvc_X_of_many c2 h] at hv2
      exact Or.inr (Or.inl (by injection hv2 with h'; exact h'.symm))
    · rw [cuvc_X_of_many c3 h] at hv3
      exact Or.inr (Or.inr (Or.inl (by injection hv3 with h'; exact h'.symm)))
    · rw [cuvc_X_of_many c4 h] at hv4
      exact Or.inr (Or.inr (Or.inr (by injection hv4 with h'; exact h'.symm)))
  have hbody : uniqBody filename (.table t) = .ok (some filename) := by
    unfold uniqBody
    simp [read_csv, colUniqueRes_of_col t "STATION" c1 h1, hv1,
      colUniqueRes_of_col t "LATITUDE" c2 h2, hv2,
      colUniqueRes_of_col t "LONGITUDE" c3 h3, hv3,
      colUniqueRes_of_col t "ELEVATION" c4 h4, hv4,
      sentinelChain_X filename v1 v2 v3 v4 hsome]
  unfold unique_values_spatial_check
  rw [hbody]

/-! ### Quarantine-router and batch-loop lemmas -/

/-- Evaluation of `move_s3_file` on a two-segment key whose object exists:
marker put, copy to the quarantine name, delete of the original. -/
theorem move_ok_eval (now : Int) (store : Store) (f year file_ note : String) (obj : Obj)
    (hsplit : splitStr f '/' = [year, file_])
    (hne : f ≠ "_data_error/")
    (hget : getObj store f = some obj) :
    move_s3_file now store f note =
      .ok (delObj (putObj (putObj store "_data_error/" ⟨.empty, now⟩)
            (destName year file_ note) ⟨obj.content, now⟩) f) := by
  have h1 : getObj (putObj store "_data_error/" ⟨.empty, now⟩) f = some obj := by
    rw [getObj_putObj_ne _ _ _ _ hne]
    exact hget
  unfold move_s3_file
  simp only [hsplit, h1]

/-- Evaluation of `move_s3_file` on a two-segment key whose object is gone:
the copy raises ClientError after the marker put, and nothing is deleted. -/
theorem move_gone_eval (now : Int) (store : Store) (f year file_ note : String)
    (hsplit : splitStr f '/' = [year, file_])
    (hne : f ≠ "_data_error/")
    (hget : getObj store f = none) :
    move_s3_file now store f note =
      .error (.clientError, putObj store "_data_error/" ⟨.empty, now⟩) := by
  have h1 : getObj (putObj store "_data_error/" ⟨.empty, now⟩) f = none := by
    rw [getObj_putObj_ne _ _ _ _ hne]
    exact hget
  unfold move_s3_file
  simp only [hsplit, h1]

/-- Evaluation of `move_s3_file` on a single-segment key: the unpack
ValueError is caught and the delete still runs. -/
theorem move_one_seg (now : Int) (store : Store) (f note : String)
    (h : (splitStr f '/').length = 1) :
    move_s3_file now store f note =
      .ok (delObj (putObj store "_data_error/" ⟨.empty, now⟩) f) := by
  rcases hs : splitStr f '/' with _ | ⟨a, rest⟩
  · rw [hs] at h
    cases h
  · rcases rest with _ | ⟨b, tl⟩
    · unfold move_s3_file
      simp only [hs]
    · rw [hs] at h
      simp at h

/-- Evaluation of `move_s3_file` on a key of three or more segments: the
unpack ValueError is re-raised and the original is not deleted. -/
theorem move_three_seg (now : Int) (store : Store) (f note : String)
    (h : 3 ≤ (splitStr f '/').length) :
    move_s3_file now store f note =
      .error (.valueError, putObj store "_data_error/" ⟨.empty, now⟩) := by
  rcases hs : splitStr f '/' with _ | ⟨a, _ | ⟨b, _ | ⟨c, tl⟩⟩⟩ <;>
    rw [hs] at h <;> try simp at h
  unfold move_s3_file
  simp only [hs]

theorem processFiles_cons_err (now : Int) (store : Store) (se : Option (Option String))
    (f : String) (rest : List String) (es : PyErr × Store)
    (h : processOneFile now store se f = .error es) :
    processFiles now store se (f :: rest) = .error es := by
  unfold processFiles
  rw [h]

/-- A batch item whose uniqueness check raises an error other than
EmptyDataError or NoSuchKey aborts `process_year_files` with that error and
no store change (here: KeyError). -/
theorem processOne_uniq_keyError (now : Int) (store : Store) (se : Option (Option String))
    (filename : String) (obj : Obj)
    (hget : getObj store filename = some obj)
    (hlen : 5 < filename.length)
    (hya : containsSub filename "year_average" = false)
    (hde : containsSub filename "_data_error" = false)
    (huniq : unique_values_spatial_check filename obj.content = .error .keyError) :
    processOneFile now store se filename = .error (.keyError, store) := by
  have htry : tryBody now store se filename = .error (.keyError, store) := by
    unfold tryBody
    simp only [hget, huniq]
  unfold processOneFile
  rw [if_neg (by omega), if_neg (by simp [hya, hde]), htry]

/-- A batch item whose uniqueness check returns the filename is routed to
quarantine with the reason "non_unique_spatial" and the loop continues with
the `spatial_errors` variable untouched. -/
theorem processOne_nonunique (now : Int) (store st : Store) (se : Option (Option String))
    (filename : String) (obj : Obj)
    (hget : getObj store filename = some obj)
    (hlen : 5 < filename.length)
    (hya : containsSub filename "year_average" = false)
    (hde : containsSub filename "_data_error" = false)
    (huniq : unique_values_spatial_check filename obj.content = .ok (some filename))
    (hmv : move_s3_file now store filename "non_unique_spatial" = .ok st) :
    processOneFile now store se filename = .ok (st, se) := by
  have hfn : (filename == "") = false := by
    have hne : filename ≠ "" := by
      intro h0
      rw [h0] at hlen
      simp at hlen
    simp [hne]
  have htry : tryBody now store se filename = .ok (st, se) := by
    unfold tryBody
    simp only [hget, huniq, truthy, hfn, Bool.not_false, if_true, Option.getD, hmv]
  unfold processOneFile
  rw [if_neg (by omega), if_neg (by simp [hya, hde]), htry]

/-! ### Batcher lemmas -/

theorem chunksAux_nil (fuel size : Nat) : chunksAux fuel [] size = [] := by
  cases fuel <;> rfl

theorem chunksAux_flatten (fuel size : Nat) (hs : 1 ≤ size) :
    ∀ l : List String, l.length ≤ fuel → (chunksAux fuel l size).flatten = l := by
  induction fuel with
  | zero =>
    intro l hl
    rw [List.length_eq_zero.mp (Nat.le_zero.mp hl)]
    rfl
  | succ fuel ih =>
    intro l hl
    cases l with
    | nil => rfl
    | cons a as =>
      rw [chunksAux, List.flatten_cons,
        ih ((a :: as).drop size) (by rw [List.length_drop]; simp at hl ⊢; omega),
        List.take_append_drop]

theorem chunksAux_mem (fuel size : Nat) (hs : 1 ≤ size) :
    ∀ l : List String, l.length ≤ fuel →
      ∀ c ∈ chunksAux fuel l size, 1 ≤ c.length ∧ c.length ≤ size := by
  induction fuel with
  | zero =>
    intro l hl c hc
    rw [show chunksAux 0 l size = [] from rfl] at hc
    exact absurd hc (List.not_mem_nil c)
  | succ fuel ih =>
    intro l hl c hc
    cases l with
    | nil =>
      rw [chunksAux_nil] at hc
      exact absurd hc (List.not_mem_nil c)
    | cons a as =>
      rw [chunksAux] at hc
      rcases List.mem_cons.mp hc with h | h
      · subst h
        rw [List.length_take]
        constructor
        · simp
          omega
        · omega
      · exact ih _ (by rw [List.length_drop]; simp at hl ⊢; omega) c h

theorem chunksAux_dropLast (fuel size : Nat) (hs : 1 ≤ size) :
    ∀ l : List String, l.length ≤ fuel →
      ∀ c ∈ (chunksAux fuel l size).dropLast, c.length = size := by
  induction fuel with
  | zero =>
    intro l hl c hc
    rw [show chunksAux 0 l size = [] from rfl] at hc
    simp at hc
  | succ fuel ih =>
    intro l hl c hc
    cases l with
    | nil =>
      rw [chunksAux_nil] at hc
      simp at hc
    | cons a as =>
      rw [chunksAux] at hc
      rcases hrest : chunksAux fuel ((a :: as).drop size) size with _ | ⟨r, rs⟩
      · rw [hrest] at hc
        simp at hc
      · rw [hrest] at hc
        have hdrop : (a :: as).length ≤ fuel + 1 := hl
        rcases List.mem_cons.mp (by simpa [List.dropLast] using hc) with h | h
        · subst h
          have hd : (a :: as).drop size ≠ [] := by
            intro h0
            rw [h0, chunksAux_nil] at hrest
            cases hrest
          have hlt : size < (a :: as).length := by
            by_contra hcon
            push_neg at hcon
            exact hd (List.drop_eq_nil_of_le hcon)
          rw [List.length_take]
          omega
        · have hmem : c ∈ (chunksAux fuel ((a :: as).drop size) size).dropLast := by
            rw [hrest]
            exact h
          exact ih _ (by rw [List.length_drop]; simp at hl ⊢; omega) c hmem

/-! ### Aggregation lemmas -/

theorem calcLoop_ok (store : Store) (l : List String)
    (h : ∀ s ∈ l, exOk (calcSite store s) = true) :
    calcLoop store l = .ok (l.filterMap (rowOf store), l) := by
  induction l with
  | nil => rfl
  | cons site rest ih =>
    have hs := h site (List.mem_cons_self site rest)
    rcases hc : calcSite store site with e | r
    · rw [hc] at hs
      simp [exOk] at hs
    · unfold calcLoop
      rw [hc, ih (fun s hs' => h s (List.mem_cons_of_mem site hs'))]
      cases r with
      | none => simp [List.filterMap_cons, rowOf, hc]
      | some x => simp [List.filterMap_cons, rowOf, hc]

theorem length_filterMap_countP {α β : Type} (f : α → Option β) (l : List α) :
    (l.filterMap f).length = l.countP (fun a => (f a).isSome) := by
  induction l with
  | nil => rfl
  | cons a as ih =>
    rcases hf : f a with _ | b <;> simp [List.filterMap_cons, hf, List.countP_cons, ih]

theorem rowOf_isSome (store : Store) (s : String) :
    (rowOf store s).isSome = exOkSome (calcSite store s) := by
  rcases hc : calcSite store s with e | (_ | r) <;> simp [rowOf, exOkSome, hc]

/-! ### Claim C7: batching is lossless and order-preserving up to truncation -/

/-- Claim C7: for every list of key-lists, chunk size of at least 1 and
maximum, the concatenation of the batcher's chunks equals the first
`total_processed` elements of the flattened key lists in order; every chunk
but possibly the last has exactly `list_size` elements and a final chunk has
between 1 and `list_size`; in particular
batch([a,b,c,d,e], size=2, max=5) = [[a,b],[c,d],[e]]. -/
theorem claim_C7 (kls : List (List String)) (C M : Nat) (hC : 1 ≤ C) :
    (aws_lists_prep_for_map kls C M).flatten = (kls.flatten.take M) ∧
    (∀ c ∈ (aws_lists_prep_for_map kls C M).dropLast, c.length = C) ∧
    (∀ c ∈ aws_lists_prep_for_map kls C M, 1 ≤ c.length ∧ c.length ≤ C) ∧
    aws_lists_prep_for_map [["a", "b", "c", "d", "e"]] 2 5 =
      [["a", "b"], ["c", "d"], ["e"]] := by
  unfold aws_lists_prep_for_map chunks
  exact ⟨chunksAux_flatten _ C hC _ le_rfl, chunksAux_dropLast _ C hC _ le_rfl,
    chunksAux_mem _ C hC _ le_rfl, by decide⟩

/-- Claim C7, witness at a concrete instance. -/
theorem claim_C7_witness :
    1 ≤ 2 ∧
    ((aws_lists_prep_for_map [["a", "b", "c"], ["d", "e"]] 2 4).flatten =
        (([["a", "b", "c"], ["d", "e"]] : List (List String)).flatten.take 4) ∧
      (∀ c ∈ (aws_lists_prep_for_map [["a", "b", "c"], ["d", "e"]] 2 4).dropLast,
        c.length = 2) ∧
      (∀ c ∈ aws_lists_prep_for_map [["a", "b", "c"], ["d", "e"]] 2 4,
        1 ≤ c.length ∧ c.length ≤ 2) ∧
      aws_lists_prep_for_map [["a", "b", "c", "d", "e"]] 2 5 =
        [["a", "b"], ["c", "d"], ["e"]]) :=
  ⟨by decide, claim_C7 [["a", "b", "c"], ["d", "e"]] 2 4 (by decide)⟩

/-! ### Claim C10: listing an empty prefix raises instead of returning [] -/

/-- Claim C10: for every prefix under which the store holds zero matching
objects, both listing operations raise KeyError when subscripting the
missing Contents entry of the page, so listing needs at least one matching
object as a precondition (under which it succeeds). -/
theorem claim_C10 (now min_old : Int) (tless : Bool) (store : Store) (pre : String) :
    (keysWithPre store pre = [] →
      aws_year_files store pre = .error .keyError ∧
      aws_all_year_files now store pre min_old tless = .error .keyError) ∧
    (keysWithPre store pre ≠ [] →
      (∃ l, aws_year_files store pre = .ok l) ∧
      ∃ l, aws_all_year_files now store pre min_old tless = .ok l) := by
  constructor
  · intro h
    simp only [aws_year_files, aws_all_year_files, h]
    simp
  · intro h
    have hne : (keysWithPre store pre).isEmpty = false := by
      cases hk : keysWithPre store pre with
      | nil => exact absurd hk h
      | cons a l => rfl
    simp only [aws_year_files, aws_all_year_files, hne]
    simp

/-- Claim C10, witness: a prefix with no object errors, one with an object
succeeds. -/
theorem claim_C10_witness :
    (keysWithPre oneFileStore "2020" = [] ∧
      aws_year_files oneFileStore "2020" = .error .keyError) ∧
    (keysWithPre oneFileStore "1929" ≠ [] ∧
      ∃ l, aws_year_files oneFileStore "1929" = .ok l) :=
  ⟨⟨by decide, ((claim_C10 0 0 true oneFileStore "2020").1 (by decide)).1⟩,
   ⟨by decide, ((claim_C10 0 0 true oneFileStore "1929").2 (by decide)).1⟩⟩

/-! ### Claim C3: skip-if-exists guard of the aggregation -/

/-- Claim C3, counterexample: the 1929 summary exists in the store, the
force flag is false, and yet aggregation issues a read of the year's data
file, because the skip guard consults the time-filtered finished-files
listing (here empty: the summary is older than the one-minute threshold)
rather than the store. -/
theorem claim_C3_cex :
    (getObj oldSummaryStore (summKey "1929")).isSome = true ∧
    aws_all_year_files 100 oldSummaryStore "year_average" 1 true = .ok [] ∧
    calcReads (calculate_year_csv 100 oldSummaryStore "1929" [] false) =
      ["1929/123.csv"] := by
  exact ⟨by decide, by decide, by decide⟩

/-- Claim C3 as amended: when the force flag is false and the summary key for
the year occurs in the finished-files list handed to the task (the
time-filtered listing of the summary area), aggregation returns immediately:
it issues zero reads and leaves the store, hence the existing summary,
unchanged. -/
theorem claim_C3_amended (now : Int) (store : Store) (year_folder : String)
    (finished_files : List String)
    (hin : finished_files.contains (summKey year_folder) = true) :
    calculate_year_csv now store year_folder finished_files false = .ok ⟨store, []⟩ := by
  unfold calculate_year_csv
  rw [if_pos (by simp only [Bool.not_false, Bool.true_and]; exact hin)]

/-- Claim C3, witness for the amended statement. -/
theorem claim_C3_witness :
    ([summKey "1929"].contains (summKey "1929") = true) ∧
    calculate_year_csv 0 oldSummaryStore "1929" [summKey "1929"] false =
      .ok ⟨oldSummaryStore, []⟩ :=
  ⟨by decide,
   claim_C3_amended 0 oldSummaryStore "1929" [summKey "1929"] (by decide)⟩

/-! ### Claim C2: quarantine is destructive but not idempotent -/

/-- Claim C2, counterexample: after quarantining 1929/123.csv the key is
gone, but the second quarantine call raises a ClientError from copying the
missing source instead of completing without error. -/
theorem claim_C2_cex :
    move_s3_file 5 quarStore "1929/123.csv" "missing_spatial" = .ok quarStoreAfter ∧
    getObj quarStoreAfter "1929/123.csv" = none ∧
    move_s3_file 5 quarStoreAfter "1929/123.csv" "missing_spatial" =
      .error (.clientError, quarStoreAfter) := by
  exact ⟨by decide, by decide, by decide⟩

/-- Claim C2 as amended: for a two-segment key present in a store with
distinct keys, quarantine removes the key and leaves exactly one object
under the quarantine name carrying the original content; but a second call
on the now-absent key raises a ClientError from the copy of the missing
source (after re-putting the marker object, which leaves the store as it
was) rather than completing without error. -/
theorem claim_C2_amended (now : Int) (store st2 : Store) (k year file_ note : String)
    (obj : Obj)
    (hsplit : splitStr k '/' = [year, file_])
    (hne1 : k ≠ "_data_error/")
    (hne2 : k ≠ destName year file_ note)
    (hget : getObj store k = some obj)
    (hnd : nodupKeys store)
    (hst : st2 = delObj (putObj (putObj store "_data_error/" ⟨.empty, now⟩)
            (destName year file_ note) ⟨obj.content, now⟩) k) :
    move_s3_file now store k note = .ok st2 ∧
    getObj st2 k = none ∧
    getObj st2 (destName year file_ note) = some ⟨obj.content, now⟩ ∧
    countKey st2 (destName year file_ note) = 1 ∧
    move_s3_file now st2 k note = .error (.clientError, st2) := by
  subst hst
  have hdlen : ("_data_error/" : String).length < (destName year file_ note).length := by
    have e1 : ("_data_error/" : String).length = 12 := by decide
    have e2 : ("-" : String).length = 1 := by decide
    have e3 : (".csv" : String).length = 4 := by decide
    simp [destName, String.length_append, e1, e2, e3]
    omega
  have hmkdest : ("_data_error/" : String) ≠ destName year file_ note := by
    intro he
    rw [← he] at hdlen
    exact lt_irrefl _ hdlen
  have h2 : getObj (delObj (putObj (putObj store "_data_error/" ⟨.empty, now⟩)
      (destName year file_ note) ⟨obj.content, now⟩) k) k = none :=
    getObj_delObj_self _ k
  have h3 : getObj (delObj (putObj (putObj store "_data_error/" ⟨.empty, now⟩)
      (destName year file_ note) ⟨obj.content, now⟩) k) (destName year file_ note) =
      some ⟨obj.content, now⟩ := by
    rw [getObj_delObj_ne _ _ _ (Ne.symm hne2), getObj_putObj_self]
  have h4 : countKey (delObj (putObj (putObj store "_data_error/" ⟨.empty, now⟩)
      (destName year file_ note) ⟨obj.content, now⟩) k) (destName year file_ note) = 1 := by
    rw [countKey_delObj_ne _ _ _ (Ne.symm hne2)]
    exact countKey_putObj_self _ _ _ (nodupKeys_putObj store _ _ hnd)
  refine ⟨move_ok_eval now store k year file_ note obj hsplit hne1 hget, h2, h3, h4, ?_⟩
  have hmarker : getObj (delObj (putObj (putObj store "_data_error/" ⟨.empty, now⟩)
      (destName year file_ note) ⟨obj.content, now⟩) k) "_data_error/" =
      some ⟨.empty, now⟩ := by
    rw [getObj_delObj_ne _ _ _ (Ne.symm hne1),
      getObj_putObj_ne _ _ _ _ hmkdest, getObj_putObj_self]
  have hgone := move_gone_eval now _ k year file_ note hsplit hne1 h2
  rw [putObj_same _ "_data_error/" ⟨.empty, now⟩ hmarker] at hgone
  exact hgone

/-- Claim C2, witness for the amended statement at the concrete store. -/
theorem claim_C2_witness :
    move_s3_file 5 quarStore "1929/123.csv" "missing_spatial" = .ok quarStoreAfter ∧
    getObj quarStoreAfter "1929/123.csv" = none ∧
    getObj quarStoreAfter (destName "1929" "123.csv" "missing_spatial") =
      some ⟨.table goodTable, 5⟩ ∧
    countKey quarStoreAfter (destName "1929" "123.csv" "missing_spatial") = 1 ∧
    move_s3_file 5 quarStoreAfter "1929/123.csv" "missing_spatial" =
      .error (.clientError, quarStoreAfter) :=
  claim_C2_amended 5 quarStore quarStoreAfter "1929/123.csv" "1929" "123.csv"
    "missing_spatial" ⟨.table goodTable, 0⟩ (by decide) (by decide) (by decide)
    (by decide) (by decide) (by decide)

/-! ### Claim C5: malformed keys in the quarantine router -/

/-- Claim C5, counterexample: a key of three segments makes the router
re-raise the unpack ValueError, and the source object is not deleted. -/
theorem claim_C5_cex :
    move_s3_file 3 threeSegStore "a/b/c.csv" "r" =
      .error (.valueError, putObj threeSegStore "_data_error/" ⟨.empty, 3⟩) ∧
    getObj (putObj threeSegStore "_data_error/" ⟨.empty, 3⟩) "a/b/c.csv" =
      some ⟨.empty, 0⟩ := by
  exact ⟨by decide, by decide⟩

/-- Claim C5 as amended: a key with no separator is tolerated (the unpack
ValueError is caught and the source object is still deleted), but a key of
three or more segments re-raises the ValueError and the source object
survives. -/
theorem claim_C5_amended (now : Int) (store : Store) (k note : String) :
    ((splitStr k '/').length = 1 →
      move_s3_file now store k note =
        .ok (delObj (putObj store "_data_error/" ⟨.empty, now⟩) k)) ∧
    (3 ≤ (splitStr k '/').length →
      move_s3_file now store k note =
        .error (.valueError, putObj store "_data_error/" ⟨.empty, now⟩)) :=
  ⟨fun h => move_one_seg now store k note h, fun h => move_three_seg now store k note h⟩

/-- Claim C5, witness for both branches of the amended statement. -/
theorem claim_C5_witness :
    ((splitStr "abc.csv" '/').length = 1 ∧
      move_s3_file 0 threeSegStore "abc.csv" "r" =
        .ok (delObj (putObj threeSegStore "_data_error/" ⟨.empty, 0⟩) "abc.csv")) ∧
    (3 ≤ (splitStr "a/b/c.csv" '/').length ∧
      move_s3_file 0 threeSegStore "a/b/c.csv" "r" =
        .error (.valueError, putObj threeSegStore "_data_error/" ⟨.empty, 0⟩)) :=
  ⟨⟨by decide, (claim_C5_amended 0 threeSegStore "abc.csv" "r").1 (by decide)⟩,
   ⟨by decide, (claim_C5_amended 0 threeSegStore "a/b/c.csv" "r").2 (by decide)⟩⟩

/-! ### Claim C4: empty or unparseable files -/

/-- Claim C4: the code contradicts the claim.  An empty station-year file
makes the uniqueness check swallow the EmptyDataError and return the
sentinel "X"; the batch then "quarantines" the literal key "X" with reason
non_unique_spatial, which only creates the marker object and deletes the
nonexistent key "X".  The original empty file stays in the working area and
no empty_data_error quarantine entry is produced. -/
theorem claim_C4_bug :
    unique_values_spatial_check "1929/12345.csv" .empty = .ok (some "X") ∧
    process_year_files 7 emptyFileStore ["1929/12345.csv"] =
      .ok (putObj emptyFileStore "_data_error/" ⟨.empty, 7⟩) ∧
    getObj (putObj emptyFileStore "_data_error/" ⟨.empty, 7⟩) "1929/12345.csv" =
      some ⟨.empty, 3⟩ ∧
    getObj (putObj emptyFileStore "_data_error/" ⟨.empty, 7⟩)
      "_data_error/1929-12345-empty_data_error.csv" = none := by
  exact ⟨by decide, by decide, by decide, by decide⟩

/-! ### Claim C6: keys that vanished between listing and read -/

/-- Claim C6: the code contradicts the claim.  When the first key of a batch
has vanished before the read, the NoSuchKey handler calls move_s3_file with
the never-assigned spatial_errors variable: a NameError aborts the whole
batch, and the vanished key is not quarantined as NotFound. -/
theorem claim_C6_bug :
    getObj ([] : Store) "1929/99999.csv" = none ∧
    process_year_files 0 ([] : Store) ["1929/99999.csv"] = .error (.nameError, []) := by
  exact ⟨by decide, by decide⟩

/-! ### Claim C1: files lacking a spatial column -/

/-- Claim C1, counterexample: a parsed file with no ELEVATION column makes
the batch abort with an uncaught KeyError; no MissingSpatial quarantine
happens and the store is untouched. -/
theorem claim_C1_cex :
    read_csv (.table missingColTable) = .ok missingColTable ∧
    getCol missingColTable "ELEVATION" = none ∧
    process_year_files 0 missingColStore ["1929/12345.csv"] =
      .error (.keyError, missingColStore) := by
  exact ⟨by decide, by decide, by decide⟩

/-- Claim C1 as amended: for every station-year file that parses as CSV with
at least one data row but lacks one of the four spatial columns, validation
raises an uncaught KeyError: the batch aborts with the store unchanged and
the file is not quarantined. -/
theorem claim_C1_amended (now : Int) (store : Store) (filename : String) (t : Table)
    (lm : Int) (rest : List String)
    (hget : getObj store filename = some ⟨.table t, lm⟩)
    (hlen : 5 < filename.length)
    (hya : containsSub filename "year_average" = false)
    (hde : containsSub filename "_data_error" = false)
    (hrows : t.rows ≠ [])
    (hmiss : getCol t "STATION" = none ∨ getCol t "LATITUDE" = none ∨
             getCol t "LONGITUDE" = none ∨ getCol t "ELEVATION" = none) :
    process_year_files now store (filename :: rest) = .error (.keyError, store) := by
  have huniq := uniq_keyError_of_missing filename t hrows hmiss
  have h1 := processOne_uniq_keyError now store none filename ⟨.table t, lm⟩
    hget hlen hya hde huniq
  exact processFiles_cons_err now store none filename rest _ h1

/-- Claim C1, witness for the amended statement. -/
theorem claim_C1_witness :
    (5 < ("1929/12345.csv" : String).length ∧
      missingColTable.rows ≠ [] ∧ getCol missingColTable "ELEVATION" = none) ∧
    process_year_files 11 missingColStore ["1929/12345.csv", "1929/222222.csv"] =
      .error (.keyError, missingColStore) :=
  ⟨⟨by decide, by decide, by decide⟩,
   claim_C1_amended 11 missingColStore "1929/12345.csv" missingColTable 0
     ["1929/222222.csv"] (by decide) (by decide) (by decide) (by decide) (by decide)
     (Or.inr (Or.inr (Or.inr (by decide))))⟩

/-! ### Claim C8: files with a non-unique spatial column -/

/-- Claim C8, counterexample: a parsed file whose STATION column has two
distinct values but whose ELEVATION column is absent does not get the
NonUniqueSpatial verdict; the check raises KeyError and the batch aborts. -/
theorem claim_C8_cex :
    read_csv (.table nonUniqueNoElevTable) = .ok nonUniqueNoElevTable ∧
    getCol nonUniqueNoElevTable "STATION" = some [some "1", some "9"] ∧
    1 < (pdUnique [some "1", some "9"]).length ∧
    unique_values_spatial_check "1929/54321.csv" (.table nonUniqueNoElevTable) =
      .error .keyError ∧
    process_year_files 0 nonUniqueNoElevStore ["1929/54321.csv"] =
      .error (.keyError, nonUniqueNoElevStore) := by
  exact ⟨by decide, by decide, by decide, by decide, by decide⟩

/-- Claim C8 as amended: for every file that parses as CSV with all four
spatial columns present and at least one of them holding two or more
distinct values (as strings), the verdict is NonUniqueSpatial: the
uniqueness check returns the filename before the completeness check is ever
consulted, and the file is quarantined with reason non_unique_spatial. -/
theorem claim_C8_amended (now : Int) (store : Store) (se : Option (Option String))
    (filename year file_ : String) (t : Table) (lm : Int)
    (c1 c2 c3 c4 : List (Option String))
    (hget : getObj store filename = some ⟨.table t, lm⟩)
    (hlen : 5 < filename.length)
    (hya : containsSub filename "year_average" = false)
    (hde : containsSub filename "_data_error" = false)
    (h1 : getCol t "STATION" = some c1) (h2 : getCol t "LATITUDE" = some c2)
    (h3 : getCol t "LONGITUDE" = some c3) (h4 : getCol t "ELEVATION" = some c4)
    (hx : 1 < (pdUnique c1).length ∨ 1 < (pdUnique c2).length ∨
          1 < (pdUnique c3).length ∨ 1 < (pdUnique c4).length)
    (hsplit : splitStr filename '/' = [year, file_]) :
    unique_values_spatial_check filename (.table t) = .ok (some filename) ∧
    processOneFile now store se filename =
      .ok (delObj (putObj (putObj store "_data_error/" ⟨.empty, now⟩)
            (destName year file_ "non_unique_spatial") ⟨.table t, now⟩) filename, se) := by
  have huniq := uniq_X_of_nonunique filename t c1 c2 c3 c4 h1 h2 h3 h4 hx
  have hnemk : filename ≠ "_data_error/" := by
    intro he
    rw [he] at hde
    have hc : containsSub "_data_error/" "_data_error" = true := by decide
    rw [hc] at hde
    cases hde
  have hmv := move_ok_eval now store filename year file_ "non_unique_spatial"
    ⟨.table t, lm⟩ hsplit hnemk hget
  exact ⟨huniq,
    processOne_nonunique now store _ se filename ⟨.table t, lm⟩ hget hlen hya hde huniq hmv⟩

/-- Claim C8, witness for the amended statement. -/
theorem claim_C8_witness :
    unique_values_spatial_check "1929/55555.csv" (.table nonUniqueTable) =
      .ok (some "1929/55555.csv") ∧
    processOneFile 2 nonUniqueStore none "1929/55555.csv" =
      .ok (delObj (putObj (putObj nonUniqueStore "_data_error/" ⟨.empty, 2⟩)
            (destName "1929" "55555.csv" "non_unique_spatial") ⟨.table nonUniqueTable, 2⟩)
          "1929/55555.csv", none) :=
  claim_C8_amended 2 nonUniqueStore none "1929/55555.csv" "1929" "55555.csv"
    nonUniqueTable 2 [some "1", some "9"] [some "2", some "2"] [some "3", some "3"]
    [some "4", some "4"]
    (by decide) (by decide) (by decide) (by decide) (by decide) (by decide)
    (by decide) (by decide) (Or.inl (by decide)) (by decide)

/-! ### Claim C9: shape of the yearly summary -/

/-- Claim C9, counterexample: a year whose single file reads and parses
successfully but lacks the TEMP column does not produce a two-line summary;
the aggregation task aborts with an uncaught KeyError and writes nothing. -/
theorem claim_C9_cex :
    exOk (read_csv (.table noTempTable)) = true ∧
    calculate_year_csv 4 noTempStore "1929" [] true = .error (.keyError, noTempStore) ∧
    getObj noTempStore (summKey "1929") = none := by
  exact ⟨by decide, by decide, by decide⟩

/-- Claim C9 as amended: for a year whose listing succeeds and all of whose
listed files process without an uncaught error (they read, parse and carry
the required numeric columns, or fail to read or parse with
EmptyDataError/ParserError, in which case they are skipped), the task writes
one summary object whose lines are the header followed by one row per fully
processed file in file-iteration order — header plus N rows for N fully
processed files — overwriting any prior summary and touching no other key. -/
theorem claim_C9_amended (now : Int) (store : Store) (year_folder : String)
    (finished_files : List String) (calc_all : Bool) (files0 : List String)
    (hguard : calc_all = false → finished_files.contains (summKey year_folder) = false)
    (hlist : aws_year_files store year_folder = .ok files0)
    (hok : ∀ s ∈ files0.filter (fun x => 6 < x.length), exOk (calcSite store s) = true) :
    calculate_year_csv now store year_folder finished_files calc_all =
      .ok ⟨putObj store (summKey year_folder)
            ⟨.text (yearSummaryLines store files0), now⟩,
          files0.filter (fun x => 6 < x.length)⟩ ∧
    (yearSummaryLines store files0).length =
      1 + (files0.filter (fun x => 6 < x.length)).countP
            (fun s => exOkSome (calcSite store s)) ∧
    getObj (putObj store (summKey year_folder)
        ⟨.text (yearSummaryLines store files0), now⟩) (summKey year_folder) =
      some ⟨.text (yearSummaryLines store files0), now⟩ ∧
    ∀ k, k ≠ summKey year_folder →
      getObj (putObj store (summKey year_folder)
        ⟨.text (yearSummaryLines store files0), now⟩) k = getObj store k := by
  have hguard2 : (!calc_all && finished_files.contains (summKey year_folder)) = false := by
    cases calc_all with
    | true => rfl
    | false =>
      simp only [Bool.not_false, Bool.true_and]
      exact hguard rfl
  have hcl := calcLoop_ok store (files0.filter (fun x => 6 < x.length)) hok
  refine ⟨?_, ?_, getObj_putObj_self _ _ _, fun k hk => getObj_putObj_ne _ _ _ _ hk⟩
  · unfold calculate_year_csv
    rw [if_neg (by rw [hguard2]; simp), hlist]
    simp only [hcl, yearSummaryLines]
  · rw [yearSummaryLines, List.length_cons, length_filterMap_countP,
      List.countP_congr (fun s _ => by rw [rowOf_isSome store s])]
    omega

/-- Claim C9, witness for the amended statement: a year with one fully
processed file and one empty (skipped) file gets a two-line summary. -/
theorem claim_C9_witness :
    aws_year_files mixedYearStore "1929" = .ok ["1929/123.csv", "1929/88.csv"] ∧
    calculate_year_csv 9 mixedYearStore "1929" [] true =
      .ok ⟨putObj mixedYearStore (summKey "1929")
            ⟨.text (yearSummaryLines mixedYearStore ["1929/123.csv", "1929/88.csv"]), 9⟩,
          ["1929/123.csv", "1929/88.csv"].filter (fun x => 6 < x.length)⟩ ∧
    (yearSummaryLines mixedYearStore ["1929/123.csv", "1929/88.csv"]).length = 2 := by
  have h := claim_C9_amended 9 mixedYearStore "1929" [] true
    ["1929/123.csv", "1929/88.csv"] (fun hc => Bool.noConfusion hc) (by decide) (by decide)
  refine ⟨by decide, h.1, ?_⟩
  rw [h.2.1]
  decide

end NOAA
